import Mathlib

set_option maxHeartbeats 1000000

/-!
A model of `@yarnpkg/esbuild-plugin-pnp` (`sources/index.ts`).

JS strings are modelled as Lean `String` (a wrapper around `List Char`); the JS
string operations used by the plugin are defined on `.data`.  JS `null`/optional
values become `Option`, thrown JS errors become `Except`, and the esbuild
`OnResolveResult` object becomes a structure with optional fields.
-/

/-- JS `s.startsWith(p)`. -/
def jsStartsWith (s p : String) : Bool := p.data.isPrefixOf s.data

/-- JS `s.endsWith(p)`. -/
def jsEndsWith (s p : String) : Bool := p.data.isSuffixOf s.data

/-- JS `s.length`. -/
def jsLength (s : String) : Nat := s.data.length

/-- `type External = string | {prefix: string, suffix: string}` (index.ts line 9). -/
inductive External where
  | exact (s : String)
  | wildcard (pre suf : String)
  deriving DecidableEq

/-- One entry of `parseExternals` (index.ts lines 12-21): find `external.indexOf('*')`;
when a `*` is present, split into the part before the first `*` and the part after it. -/
def parseExternal (external : String) : External :=
  match external.data.findIdx? (· == '*') with
  | some wildcardIdx =>
      .wildcard ⟨external.data.take wildcardIdx⟩ ⟨external.data.drop (wildcardIdx + 1)⟩
  | none => .exact external

/-- `parseExternals` (index.ts lines 12-21). -/
def parseExternals (externals : List String) : List External :=
  externals.map parseExternal

/-- The body of the loop of `isExternal` (index.ts lines 24-49) for one pattern. -/
def matchesExternal (path : String) (external : External) : Bool :=
  match external with
  | .wildcard pre suf =>
      decide (jsLength pre + jsLength suf ≤ jsLength path)
        && jsStartsWith path pre
        && jsEndsWith path suf
  | .exact ext =>
      (path == ext)
        || (!jsStartsWith ext "/" && !jsStartsWith ext "./" && !jsStartsWith ext "../"
            && ext != "." && ext != ".."
            && jsStartsWith path (ext ++ "/"))

/-- `isExternal` (index.ts lines 23-52): first matching pattern short-circuits to true. -/
def isExternal (path : String) (externals : List External) : Bool :=
  externals.any (matchesExternal path)

/-- `conditionsDefault` (index.ts lines 128-131): `new Set(conditions)`, add `"default"`,
and add the platform itself when it is `"browser"` or `"node"`. -/
def buildConditionsDefault (userConditions : List String) (platform : String) : Finset String :=
  let conditionsDefault := insert "default" userConditions.toFinset
  if platform = "browser" ∨ platform = "node" then insert platform conditionsDefault
  else conditionsDefault

/-- `conditionsImport` (index.ts lines 132-133). -/
def buildConditionsImport (userConditions : List String) (platform : String) : Finset String :=
  insert "import" (buildConditionsDefault userConditions platform)

/-- `conditionsRequire` (index.ts lines 134-135). -/
def buildConditionsRequire (userConditions : List String) (platform : String) : Finset String :=
  insert "require" (buildConditionsDefault userConditions platform)

/-- esbuild's `ImportKind` for `OnResolveArgs` (a closed enumeration of the host tool). -/
inductive ImportKind where
  | entryPoint
  | importStatement
  | requireCall
  | dynamicImport
  | requireResolve
  | importRule
  | urlToken
  deriving DecidableEq

/-- A thrown JS `Error` (only its message is observed by the plugin). -/
structure JsError where
  message : String
  deriving DecidableEq

/-- The fields of esbuild's `OnResolveArgs` read by the plugin.  Absent `importer` /
`resolveDir` are the empty string, matching esbuild's behaviour and the JS truthiness
tests in the source. -/
structure OnResolveArgs where
  path : String
  importer : String
  kind : ImportKind
  resolveDir : String
  deriving DecidableEq

/-- A `{text: string}` message of esbuild's `errors` / `warnings` arrays. -/
structure Message where
  text : String
  deriving DecidableEq

/-- `OnResolveParams` (index.ts lines 67-71). -/
structure OnResolveParams where
  resolvedPath : Option String
  watchFiles : List String
  error : Option JsError
  deriving DecidableEq

/-- The fields of esbuild's `OnResolveResult` produced by the plugin.  A field the
plugin leaves out keeps its default (`none` / `false` / `[]`). -/
structure OnResolveResult where
  external : Bool := false
  nspace : Option String := none  -- `namespace` in esbuild; a keyword in Lean
  path : Option String := none
  errors : Option (List Message) := none
  warnings : Option (List Message) := none
  watchFiles : List String := []
  deriving DecidableEq

/-- `defaultOnResolve` (index.ts lines 73-98). -/
def defaultOnResolve (args : OnResolveArgs) (params : OnResolveParams) : OnResolveResult :=
  let problems : List Message :=
    match params.error with
    | some error => [{ text := error.message }]
    | none => []
  -- `mergeWith` from the switch on `args.kind`: a (warnings, errors) pair
  let mergeWith : Option (List Message) × Option (List Message) :=
    match args.kind with
    | .requireCall | .requireResolve | .dynamicImport => (some problems, none)
    | _ => (none, some problems)
  match params.resolvedPath with
  | some resolvedPath =>
      { nspace := some "pnp", path := some resolvedPath, watchFiles := params.watchFiles }
  | none =>
      { external := true, warnings := mergeWith.1, errors := mergeWith.2,
        watchFiles := params.watchFiles }

/-- A PnP package locator (`{name, reference}`). -/
structure PackageLocator where
  name : String
  reference : String
  deriving DecidableEq

/-- PnP `linkType`. -/
inductive LinkType where
  | HARD
  | SOFT
  deriving DecidableEq

/-- The part of PnP's `PackageInformation` the plugin reads. -/
structure PackageInformation where
  linkType : LinkType
  deriving DecidableEq

/-- The options object handed to `pnpApi.resolveRequest` (index.ts lines 163-167). -/
structure ResolveRequestOptions where
  conditions : Finset String
  considerBuiltins : Bool
  extensions : List String

/-- The PnP API surface used by the plugin.  `resolveRequest` may return a path,
return `null`, or throw; `resolveVirtual` is an optional method that may return
`null`. -/
structure PnpApi where
  resolveRequest :
    String → Option String → Option ResolveRequestOptions → Except JsError (Option String)
  findPackageLocator : String → Option PackageLocator
  getPackageInformation : PackageLocator → Option PackageInformation
  resolveVirtual : Option (String → Option String)

/-- `defaultExtensions` (index.ts line 7). -/
def defaultExtensions : List String :=
  [".tsx", ".ts", ".jsx", ".mjs", ".cjs", ".js", ".css", ".json"]

/-- The state computed once in `setup` (index.ts lines 117-135) and shared by every
`onResolve` invocation: the compiled externals, the platform flag and the three
precomputed condition sets.  Nothing ever mutates it afterwards. -/
structure SetupState where
  findPnpApi : String → Option PnpApi
  externals : List External
  isPlatformNode : Bool
  conditionsDefault : Finset String
  conditionsImport : Finset String
  conditionsRequire : Finset String
  baseDir : String
  extensions : List String

/-- `setup` (index.ts lines 117-135): parse the externals, default the platform to
`"browser"`, and build the three condition sets once. -/
def setup (findPnpApi : String → Option PnpApi) (externalOption : Option (List String))
    (platformOption : Option String) (conditionsOption : Option (List String))
    (baseDir : String) (extensions : List String) : SetupState :=
  let externals := parseExternals (externalOption.getD [])
  let platform := platformOption.getD "browser"
  { findPnpApi := findPnpApi
    externals := externals
    isPlatformNode := platform == "node"
    conditionsDefault := buildConditionsDefault (conditionsOption.getD []) platform
    conditionsImport := buildConditionsImport (conditionsOption.getD []) platform
    conditionsRequire := buildConditionsRequire (conditionsOption.getD []) platform
    baseDir := baseDir
    extensions := extensions }

/-- Condition-set selection per request (index.ts lines 141-146). -/
def selectConditions (S : SetupState) (kind : ImportKind) : Finset String :=
  if kind = .dynamicImport || kind = .importStatement then S.conditionsImport
  else if kind = .requireCall || kind = .requireResolve then S.conditionsRequire
  else S.conditionsDefault

/-- The effective importer (index.ts lines 148-153): `resolveDir` (JS-truthy, i.e.
nonempty) suffixed with `/`, else a truthy `importer`, else `baseDir` suffixed
with `/`. -/
def effectiveImporter (baseDir : String) (args : OnResolveArgs) : String :=
  if args.resolveDir ≠ "" then args.resolveDir ++ "/"
  else if args.importer ≠ "" then args.importer
  else baseDir ++ "/"

/-- The four ways the `onResolve` callback (index.ts lines 137-186) can come out of
its resolution core: the early `{external: true}` return on an externals match, the
`undefined` return when `findPnpApi` does not claim the importer, an exception
escaping from the manifest resolution (line 172, the one uncaught provider call),
or the `OnResolveParams` handed to the classifier on line 185. -/
inductive EngineOutcome where
  | shortCircuit
  | delegate
  | manifestError (e : JsError)
  | classify (params : OnResolveParams)
  deriving DecidableEq

/-- The resolution core of the `onResolve` callback (index.ts lines 137-185 up to the
final `onResolve(args, …)` call), as a function of the setup state and the request. -/
def resolveEngine (S : SetupState) (args : OnResolveArgs) : EngineOutcome :=
  if isExternal args.path S.externals then .shortCircuit
  else
    let conditions := selectConditions S args.kind
    let importer := effectiveImporter S.baseDir args
    match S.findPnpApi importer with
    | none => .delegate
    | some pnpApi =>
      -- `try { path = … } catch (e) { error = e }` (lines 160-170)
      let resolved : Option String × Option JsError :=
        match pnpApi.resolveRequest args.path (some importer)
            (some { conditions := conditions, considerBuiltins := S.isPlatformNode,
                    extensions := S.extensions }) with
        | .ok p => (p, none)
        | .error e => (none, some e)
      -- `pnpApi.resolveRequest('pnpapi', null)!` (line 172): uncaught, `!` asserts non-null
      match pnpApi.resolveRequest "pnpapi" none none with
      | .error e => .manifestError e
      | .ok manifest =>
        let watchFiles : List String := [manifest.getD ""]
        let watchFiles :=
          match resolved.1 with
          | some path =>
            if path ≠ "" then  -- JS truthiness of `if (path)`
              match pnpApi.findPackageLocator path with
              | some locator =>
                match pnpApi.getPackageInformation locator with
                | some info =>
                  if info.linkType = .SOFT then
                    -- `pnpApi.resolveVirtual?.(path) ?? path` (line 180)
                    watchFiles ++ [(pnpApi.resolveVirtual.bind (fun f => f path)).getD path]
                  else watchFiles
                | none => watchFiles
              | none => watchFiles
            else watchFiles
          | none => watchFiles
        .classify { resolvedPath := resolved.1, error := resolved.2, watchFiles := watchFiles }

/-- What the registered callback returns to esbuild: a result object, or no result
(the delegation signal, covering both `undefined` and a `null` from a custom
`onResolve`). -/
inductive HookResult where
  | result (r : OnResolveResult)
  | delegate
  deriving DecidableEq

/-- The full `onResolve` callback (index.ts lines 137-186), generic over the
injectable `onResolve` option, as an `Except` (the manifest resolution may throw). -/
def onResolveCallback (S : SetupState)
    (onRes : OnResolveArgs → OnResolveParams → Option OnResolveResult)
    (args : OnResolveArgs) : Except JsError HookResult :=
  match resolveEngine S args with
  | .shortCircuit => .ok (.result { external := true })
  | .delegate => .ok .delegate
  | .manifestError e => .error e
  | .classify params =>
      .ok (match onRes args params with
           | some r => .result r
           | none => .delegate)

/-- The callback with the default classifier, i.e. `pnpPlugin()` with no overrides. -/
def defaultCallback (S : SetupState) (args : OnResolveArgs) : Except JsError HookResult :=
  onResolveCallback S (fun a p => some (defaultOnResolve a p)) args

/-! ### Concrete fixtures used by witnesses and counterexamples -/

/-- A provider whose `resolveRequest` returns `null` without throwing for everything
except `pnpapi` — the behaviour for a Node builtin under `considerBuiltins`. -/
def apiResolvesNull : PnpApi where
  resolveRequest := fun specifier _ _ =>
    if specifier == "pnpapi" then .ok (some "/project/.pnp.cjs") else .ok none
  findPackageLocator := fun _ => none
  getPackageInformation := fun _ => none
  resolveVirtual := none

/-- Setup with `apiResolvesNull` claiming every importer, platform `node`. -/
def stateResolvesNull : SetupState :=
  setup (fun _ => some apiResolvesNull) none (some "node") none "/base" defaultExtensions

/-- A static import of the Node builtin `fs`. -/
def argsBuiltin : OnResolveArgs :=
  { path := "fs", importer := "/project/src/main.ts", kind := .importStatement,
    resolveDir := "/project/src" }

/-- A provider that resolves every specifier into a SOFT-linked package and maps the
resolved path to a virtual indirection path. -/
def apiSoftLink : PnpApi where
  resolveRequest := fun specifier _ _ =>
    if specifier == "pnpapi" then .ok (some "/project/.pnp.cjs")
    else .ok (some "/store/pkg/index.js")
  findPackageLocator := fun _ => some { name := "pkg", reference := "virtual:1" }
  getPackageInformation := fun _ => some { linkType := .SOFT }
  resolveVirtual := some (fun p => some ("/virtual" ++ p))

/-- Setup with `apiSoftLink` claiming every importer, platform `node`. -/
def stateSoftLink : SetupState :=
  setup (fun _ => some apiSoftLink) none (some "node") none "/base" defaultExtensions

/-- A static import of the package `pkg`. -/
def argsPkg : OnResolveArgs :=
  { path := "pkg", importer := "", kind := .importStatement, resolveDir := "/project/src" }

/-- Setup where the provider claims no importer at all. -/
def stateUnclaimed : SetupState :=
  setup (fun _ => none) none none none "/base" defaultExtensions

/-- Setup whose build options mark `left-*` as external (and no provider). -/
def stateLeftPad : SetupState :=
  setup (fun _ => none) (some ["left-*"]) none none "/base" defaultExtensions

/-- A static import of `left-pad`. -/
def argsLeftPad : OnResolveArgs :=
  { path := "left-pad", importer := "/project/src/main.ts", kind := .importStatement,
    resolveDir := "/project/src" }

/-! ### Spec-side definitions for refinement statements -/

/-- The default condition set as §4.2 of the spec words it: the user conditions, plus
`"default"`, plus the platform name when the platform is `"browser"` or `"node"`. -/
def specConditionsDefault (userConditions : List String) (platform : String) : Finset String :=
  userConditions.toFinset ∪ {"default"}
    ∪ (if platform = "browser" ∨ platform = "node" then {platform} else ∅)

/-- §4.1's *bare package name* test, stated from the spec's words: does not start with
`/`, `./` or `../`, and is not exactly `.` or `..`. -/
def bareSpecifier (pattern : String) : Bool :=
  !jsStartsWith pattern "/" && !jsStartsWith pattern "./" && !jsStartsWith pattern "../"
    && pattern != "." && pattern != ".."

/-! ### Helper lemmas -/

theorem mem_buildConditionsDefault {x : String} {u : List String} {p : String} :
    x ∈ buildConditionsDefault u p ↔
      x ∈ u ∨ x = "default" ∨ ((p = "browser" ∨ p = "node") ∧ x = p) := by
  unfold buildConditionsDefault
  split <;> simp <;> tauto

theorem findIdxStar (p rest : List Char) (hp : '*' ∉ p) :
    (p ++ '*' :: rest).findIdx? (· == '*') = some p.length := by
  induction p with
  | nil => simp
  | cons a as ih =>
    have ha : (a == '*') = false := by
      rw [beq_eq_false_iff_ne]
      intro h
      exact hp (by simp [h])
    have has : '*' ∉ as := fun h => hp (List.mem_cons_of_mem a h)
    simp [ha, List.findIdx?_succ, ih has]

/-! ### Claim theorems -/

/-- C1: when the outcome carries an error and no resolved path, `defaultOnResolve`
returns `{external: true, watchFiles}` whose single diagnostic message goes to
`warnings` for kinds `require-call` / `require-resolve` / `dynamic-import` and to
`errors` for every other kind; the other diagnostics field stays absent. -/
theorem c1_failure_classification (args : OnResolveArgs) (params : OnResolveParams)
    (e : JsError) (he : params.error = some e) (hp : params.resolvedPath = none) :
    defaultOnResolve args params =
      (if args.kind = .requireCall ∨ args.kind = .requireResolve ∨ args.kind = .dynamicImport
       then { external := true, warnings := some [{ text := e.message }],
              watchFiles := params.watchFiles }
       else { external := true, errors := some [{ text := e.message }],
              watchFiles := params.watchFiles }) := by
  unfold defaultOnResolve
  rw [he, hp]
  cases args.kind <;> rfl

/-- Witness for C1 at a concrete dynamic-import request with a thrown error. -/
theorem c1_witness :
    defaultOnResolve
        { path := "x", importer := "", kind := ImportKind.dynamicImport, resolveDir := "" }
        { resolvedPath := none, watchFiles := ["/w"], error := some { message := "boom" } }
      = (if ImportKind.dynamicImport = .requireCall ∨ ImportKind.dynamicImport = .requireResolve
            ∨ ImportKind.dynamicImport = .dynamicImport
         then { external := true, warnings := some [{ text := "boom" }], watchFiles := ["/w"] }
         else { external := true, errors := some [{ text := "boom" }], watchFiles := ["/w"] }) :=
  c1_failure_classification _ _ { message := "boom" } rfl rfl

/-- C2 (amended): the engine never hands the classifier parameters in which both a
resolved path and an error are present — at most one of the two is set.  (Both may be
absent: see the counterexample.) -/
theorem c2_at_most_one (S : SetupState) (args : OnResolveArgs) (params : OnResolveParams)
    (h : resolveEngine S args = .classify params) :
    params.resolvedPath = none ∨ params.error = none := by
  simp only [resolveEngine] at h
  split at h
  · exact absurd h (by simp)
  · split at h
    · exact absurd h (by simp)
    · split at h
      · exact absurd h (by simp)
      · split at h
        · simp only [EngineOutcome.classify.injEq] at h
          right
          rw [← h]
        · simp only [EngineOutcome.classify.injEq] at h
          left
          rw [← h]

/-- C2 counterexample: when the provider's `resolveRequest` returns `null` without
throwing (a Node builtin under `considerBuiltins`), the engine hands the classifier
parameters in which *neither* `resolvedPath` nor `error` is present — refuting
"exactly one of the two is set". -/
theorem c2_counterexample :
    resolveEngine stateResolvesNull argsBuiltin =
      .classify { resolvedPath := none, watchFiles := ["/project/.pnp.cjs"], error := none }
    ∧ ({ resolvedPath := none, watchFiles := ["/project/.pnp.cjs"],
         error := none } : OnResolveParams).resolvedPath = none
    ∧ ({ resolvedPath := none, watchFiles := ["/project/.pnp.cjs"],
         error := none } : OnResolveParams).error = none :=
  ⟨by decide, rfl, rfl⟩

/-- Witness for C2 (amended) at the concrete null-resolving provider. -/
theorem c2_witness :
    ({ resolvedPath := none, watchFiles := ["/project/.pnp.cjs"],
       error := none } : OnResolveParams).resolvedPath = none
    ∨ ({ resolvedPath := none, watchFiles := ["/project/.pnp.cjs"],
         error := none } : OnResolveParams).error = none :=
  c2_at_most_one stateResolvesNull argsBuiltin
    { resolvedPath := none, watchFiles := ["/project/.pnp.cjs"], error := none } (by decide)

/-- C3: when the specifier matches the compiled externals, the callback returns
`{external: true}` immediately — with an empty watch set — for *every* provider
(`S.findPnpApi` arbitrary, so neither locate nor resolve is ever consulted) and every
injected classifier: the externals check precedes and overrides all other steps. -/
theorem c3_short_circuit (S : SetupState)
    (onRes : OnResolveArgs → OnResolveParams → Option OnResolveResult)
    (args : OnResolveArgs)
    (h : isExternal args.path S.externals = true) :
    onResolveCallback S onRes args = .ok (.result { external := true })
    ∧ ({ external := true } : OnResolveResult).watchFiles = [] := by
  constructor
  · unfold onResolveCallback resolveEngine
    simp [h]
  · rfl

/-- Witness for C3: specifier `left-pad` against externals `["left-*"]`. -/
theorem c3_witness :
    onResolveCallback stateLeftPad (fun a p => some (defaultOnResolve a p)) argsLeftPad
      = .ok (.result { external := true })
    ∧ ({ external := true } : OnResolveResult).watchFiles = [] :=
  c3_short_circuit stateLeftPad _ argsLeftPad (by decide)

/-- C4: when the provider does not claim the effective importing context
(`findPnpApi` returns `none`), the callback returns the delegation signal — distinct
from an external result — and this holds for every provider behaviour and injected
classifier (no resolve call, no watch-file computation can influence it). -/
theorem c4_delegate (S : SetupState)
    (onRes : OnResolveArgs → OnResolveParams → Option OnResolveResult)
    (args : OnResolveArgs)
    (hext : isExternal args.path S.externals = false)
    (hfind : S.findPnpApi (effectiveImporter S.baseDir args) = none) :
    onResolveCallback S onRes args = .ok .delegate := by
  unfold onResolveCallback resolveEngine
  simp [hext, hfind]

/-- Witness for C4 at a provider that claims nothing. -/
theorem c4_witness :
    onResolveCallback stateUnclaimed (fun a p => some (defaultOnResolve a p)) argsBuiltin
      = .ok .delegate :=
  c4_delegate stateUnclaimed _ argsBuiltin (by decide) rfl

/-- C5: every request that reaches provider resolution puts the provider's own
manifest path into the watch set; and when a path was resolved (JS-truthy), its
package located, its `linkType` is `SOFT` and the provider maps it to a virtual
path, the watch set contains both the manifest path and that virtual path. -/
theorem c5_watch_files (S : SetupState) (args : OnResolveArgs) (api : PnpApi) (mp : String)
    (hext : isExternal args.path S.externals = false)
    (hfind : S.findPnpApi (effectiveImporter S.baseDir args) = some api)
    (hman : api.resolveRequest "pnpapi" none none = .ok (some mp)) :
    (∀ params, resolveEngine S args = .classify params → mp ∈ params.watchFiles)
    ∧ (∀ (p : String) (locator : PackageLocator) (info : PackageInformation) (vp : String),
        api.resolveRequest args.path (some (effectiveImporter S.baseDir args))
            (some { conditions := selectConditions S args.kind,
                    considerBuiltins := S.isPlatformNode,
                    extensions := S.extensions }) = .ok (some p) →
        p ≠ "" →
        api.findPackageLocator p = some locator →
        api.getPackageInformation locator = some info →
        info.linkType = .SOFT →
        api.resolveVirtual.bind (fun f => f p) = some vp →
        ∀ params, resolveEngine S args = .classify params →
          mp ∈ params.watchFiles ∧ vp ∈ params.watchFiles) := by
  constructor
  · intro params h
    simp only [resolveEngine] at h
    rw [if_neg (by simp [hext])] at h
    rw [hfind] at h
    cases hres2 : api.resolveRequest args.path (some (effectiveImporter S.baseDir args))
        (some { conditions := selectConditions S args.kind,
                considerBuiltins := S.isPlatformNode,
                extensions := S.extensions }) with
    | ok q =>
      simp only [hres2, hman, Option.getD_some, EngineOutcome.classify.injEq] at h
      rw [← h]
      simp only
      repeat' split
      all_goals simp
    | error e =>
      simp only [hres2, hman, Option.getD_some, EngineOutcome.classify.injEq] at h
      rw [← h]
      simp
  · intro p locator info vp hres hp hloc hinfo hsoft hvirt params h
    simp only [resolveEngine] at h
    rw [if_neg (by simp [hext])] at h
    rw [hfind] at h
    simp only [hman, hres, hloc, hinfo, hsoft, hvirt, hp, Option.getD_some] at h
    simp only [EngineOutcome.classify.injEq] at h
    rw [← h]
    simp [hp]

/-- Witness for C5: a SOFT-linked resolution carrying both the manifest path and the
virtual indirection path in its watch set. -/
theorem c5_witness :
    "/project/.pnp.cjs" ∈
      ({ resolvedPath := some "/store/pkg/index.js",
         watchFiles := ["/project/.pnp.cjs", "/virtual/store/pkg/index.js"],
         error := none } : OnResolveParams).watchFiles
    ∧ "/virtual/store/pkg/index.js" ∈
      ({ resolvedPath := some "/store/pkg/index.js",
         watchFiles := ["/project/.pnp.cjs", "/virtual/store/pkg/index.js"],
         error := none } : OnResolveParams).watchFiles :=
  (c5_watch_files stateSoftLink argsPkg apiSoftLink "/project/.pnp.cjs"
      (by decide) rfl rfl).2
    "/store/pkg/index.js" { name := "pkg", reference := "virtual:1" } { linkType := .SOFT }
    "/virtual/store/pkg/index.js" rfl (by decide) rfl rfl rfl (by decide)
    { resolvedPath := some "/store/pkg/index.js",
      watchFiles := ["/project/.pnp.cjs", "/virtual/store/pkg/index.js"], error := none }
    (by decide)

/-- C6: the default condition set equals the user conditions plus `"default"`, plus
the platform name when the platform is `"browser"` or `"node"`; the import set is
default plus `"import"`, the require set default plus `"require"`; and each request
only *selects* one of the three precomputed sets, never building a new one. -/
theorem c6_condition_sets (userConditions : List String) (platform : String) :
    buildConditionsDefault userConditions platform = specConditionsDefault userConditions platform
    ∧ buildConditionsImport userConditions platform
        = buildConditionsDefault userConditions platform ∪ {"import"}
    ∧ buildConditionsRequire userConditions platform
        = buildConditionsDefault userConditions platform ∪ {"require"}
    ∧ (∀ (S : SetupState) (kind : ImportKind),
        selectConditions S kind = S.conditionsDefault
        ∨ selectConditions S kind = S.conditionsImport
        ∨ selectConditions S kind = S.conditionsRequire) := by
  refine ⟨?_, ?_, ?_, ?_⟩
  · unfold buildConditionsDefault specConditionsDefault
    split <;> (ext x; simp) <;> tauto
  · unfold buildConditionsImport
    ext x; simp; tauto
  · unfold buildConditionsRequire
    ext x; simp; tauto
  · intro S kind
    unfold selectConditions
    split
    · tauto
    · split <;> tauto

/-- C7 (amended): the three condition sets are pairwise distinct for every platform,
provided the user conditions contain neither `"import"` nor `"require"`. -/
theorem c7_pairwise_distinct (userConditions : List String) (platform : String)
    (hi : "import" ∉ userConditions) (hr : "require" ∉ userConditions) :
    buildConditionsDefault userConditions platform ≠ buildConditionsImport userConditions platform
    ∧ buildConditionsDefault userConditions platform
        ≠ buildConditionsRequire userConditions platform
    ∧ buildConditionsImport userConditions platform
        ≠ buildConditionsRequire userConditions platform := by
  have himp : "import" ∉ buildConditionsDefault userConditions platform := by
    rw [mem_buildConditionsDefault]
    rintro (h | h | ⟨hp | hp, hxp⟩)
    · exact hi h
    · exact absurd h (by decide)
    · subst hp; exact absurd hxp (by decide)
    · subst hp; exact absurd hxp (by decide)
  have hreq : "require" ∉ buildConditionsDefault userConditions platform := by
    rw [mem_buildConditionsDefault]
    rintro (h | h | ⟨hp | hp, hxp⟩)
    · exact hr h
    · exact absurd h (by decide)
    · subst hp; exact absurd hxp (by decide)
    · subst hp; exact absurd hxp (by decide)
  refine ⟨?_, ?_, ?_⟩
  · intro h
    exact himp (h ▸ Finset.mem_insert_self "import" _)
  · intro h
    exact hreq (h ▸ Finset.mem_insert_self "require" _)
  · intro h
    have hmem : "require" ∈ buildConditionsImport userConditions platform :=
      h ▸ Finset.mem_insert_self "require" _
    rcases Finset.mem_insert.mp hmem with h2 | h2
    · exact absurd h2 (by decide)
    · exact hreq h2

/-- C7 counterexample: with user conditions `["import"]` and platform `"node"`, the
default and import sets coincide, so the three sets are not pairwise distinct even
though a platform is given. -/
theorem c7_counterexample :
    ¬ (buildConditionsDefault ["import"] "node" ≠ buildConditionsImport ["import"] "node"
      ∧ buildConditionsDefault ["import"] "node" ≠ buildConditionsRequire ["import"] "node"
      ∧ buildConditionsImport ["import"] "node" ≠ buildConditionsRequire ["import"] "node") := by
  decide

/-- Witness for C7 (amended) with empty user conditions on platform `node`. -/
theorem c7_witness :
    buildConditionsDefault [] "node" ≠ buildConditionsImport [] "node"
    ∧ buildConditionsDefault [] "node" ≠ buildConditionsRequire [] "node"
    ∧ buildConditionsImport [] "node" ≠ buildConditionsRequire [] "node" :=
  c7_pairwise_distinct [] "node" (by decide) (by decide)

/-- C8: matching a single exact pattern returns true iff the candidate equals the
pattern, or the pattern is a bare package name and the candidate starts with
`pattern ++ "/"`; in particular a bare `pkg` matches `pkg ++ "/sub/path"` but not
`pkg ++ "other"`. -/
theorem c8_exact_pattern_matching :
    (∀ pattern path : String,
      isExternal path [External.exact pattern] =
        ((path == pattern) || (bareSpecifier pattern && jsStartsWith path (pattern ++ "/"))))
    ∧ (∀ pkg : String, bareSpecifier pkg = true →
        isExternal (pkg ++ "/sub/path") [External.exact pkg] = true
        ∧ isExternal (pkg ++ "other") [External.exact pkg] = false) := by
  have hmain : ∀ pattern path : String,
      isExternal path [External.exact pattern] =
        ((path == pattern) || (bareSpecifier pattern && jsStartsWith path (pattern ++ "/"))) := by
    intro pattern path
    simp [isExternal, matchesExternal, bareSpecifier, Bool.and_assoc]
  refine ⟨hmain, ?_⟩
  intro pkg hb
  have hne : ∀ t : String, t.data ≠ [] → (pkg ++ t == pkg) = false := by
    intro t ht
    rw [beq_eq_false_iff_ne]
    intro h
    rw [String.ext_iff, String.data_append] at h
    exact ht (List.append_right_eq_self.mp h)
  have hpre : ∀ t : String,
      jsStartsWith (pkg ++ t) (pkg ++ "/") = ("/" : String).data.isPrefixOf t.data := by
    intro t
    simp only [jsStartsWith, String.data_append]
    rw [Bool.eq_iff_iff]
    simp
  constructor
  · rw [hmain, hne "/sub/path" (by decide), hpre "/sub/path", hb]
    decide
  · rw [hmain, hne "other" (by decide), hpre "other"]
    have h2 : ("/" : String).data.isPrefixOf ("other" : String).data = false := by decide
    rw [h2]
    simp

/-- Witness for C8 at the bare package name `foo`. -/
theorem c8_witness :
    bareSpecifier "foo" = true
    ∧ isExternal ("foo" ++ "/sub/path") [External.exact "foo"] = true
    ∧ isExternal ("foo" ++ "other") [External.exact "foo"] = false :=
  ⟨by decide, (c8_exact_pattern_matching.2 "foo" (by decide)).1,
    (c8_exact_pattern_matching.2 "foo" (by decide)).2⟩

/-- C9: a raw external containing `*` is compiled by splitting at the first `*` into
a prefix/suffix pattern; wildcard matching is the length + starts-with + ends-with
test; and for the compiled `"a*z"`, `"abz"` and `"az"` match while `"a"` does not. -/
theorem c9_wildcard_matching :
    (∀ (raw : String) (p rest : List Char),
      raw.data = p ++ '*' :: rest → '*' ∉ p →
      parseExternal raw = External.wildcard ⟨p⟩ ⟨rest⟩)
    ∧ (∀ candidate pre suf : String,
        isExternal candidate [External.wildcard pre suf] =
          (decide (jsLength pre + jsLength suf ≤ jsLength candidate)
            && jsStartsWith candidate pre && jsEndsWith candidate suf))
    ∧ (isExternal "abz" [parseExternal "a*z"] = true
       ∧ isExternal "az" [parseExternal "a*z"] = true
       ∧ isExternal "a" [parseExternal "a*z"] = false) := by
  refine ⟨?_, ?_, by decide, by decide, by decide⟩
  · intro raw p rest hdata hp
    unfold parseExternal
    rw [hdata, findIdxStar p rest hp]
    have ht : (p ++ '*' :: rest).take p.length = p := List.take_left p ('*' :: rest)
    have hd : (p ++ '*' :: rest).drop (p.length + 1) = rest := by
      rw [List.append_cons]
      exact List.drop_left' (by simp)
    simp [ht, hd]
  · intro candidate pre suf
    simp [isExternal, matchesExternal]

/-- Witness for C9 at the raw external `a*z`. -/
theorem c9_witness :
    ("a*z" : String).data = ['a'] ++ '*' :: ['z']
    ∧ parseExternal "a*z" = External.wildcard ⟨['a']⟩ ⟨['z']⟩ :=
  ⟨by decide, c9_wildcard_matching.1 "a*z" ['a'] ['z'] (by decide) (by decide)⟩

/-- C10: when the provider's `resolveRequest` returns `null` without throwing, the
default pipeline returns `{external: true, watchFiles}` with no resolved path and a
*present but empty* diagnostics list (warnings or errors according to the kind): the
specifier is silently externalized. -/
theorem c10_null_resolution (S : SetupState) (args : OnResolveArgs) (api : PnpApi) (mp : String)
    (hext : isExternal args.path S.externals = false)
    (hfind : S.findPnpApi (effectiveImporter S.baseDir args) = some api)
    (hres : api.resolveRequest args.path (some (effectiveImporter S.baseDir args))
        (some { conditions := selectConditions S args.kind,
                considerBuiltins := S.isPlatformNode,
                extensions := S.extensions }) = .ok none)
    (hman : api.resolveRequest "pnpapi" none none = .ok (some mp)) :
    defaultCallback S args = .ok (.result
      (if args.kind = .requireCall ∨ args.kind = .requireResolve ∨ args.kind = .dynamicImport
       then { external := true, warnings := some [], watchFiles := [mp] }
       else { external := true, errors := some [], watchFiles := [mp] })) := by
  obtain ⟨path, importer, kind, resolveDir⟩ := args
  cases kind <;>
    simp_all [defaultCallback, onResolveCallback, resolveEngine, defaultOnResolve]

/-- Witness for C10: a static import of the Node builtin `fs` under a provider that
returns `null` for it. -/
theorem c10_witness :
    defaultCallback stateResolvesNull argsBuiltin = .ok (.result
      (if argsBuiltin.kind = .requireCall ∨ argsBuiltin.kind = .requireResolve
          ∨ argsBuiltin.kind = .dynamicImport
       then { external := true, warnings := some [], watchFiles := ["/project/.pnp.cjs"] }
       else { external := true, errors := some [], watchFiles := ["/project/.pnp.cjs"] })) :=
  c10_null_resolution stateResolvesNull argsBuiltin apiResolvesNull "/project/.pnp.cjs"
    (by decide) rfl rfl rfl
